import Mathlib

/-
Shallow embedding of the terraform-provider-pushover core
(src/internal/pushover/client.go, src/internal/provider/group_user_resource.go,
and the message resource in src/unnamed/part_007).

Remote HTTP calls are modelled by oracle values: each operation receives
the outcome the remote would produce for each endpoint it may hit, and the
embedding records which calls were issued, the diagnostics added, and the
state written (if any). Terraform nullable attributes are modelled as
Option values; the Go ValueString and ValueBool accessors return the zero
value on null, modelled by optStr and optBool.
-/

namespace Pushover

/-- Go types.String.ValueString: the empty string when the attribute is null. -/
def optStr (o : Option String) : String := o.getD ""

/-- Go types.Bool.ValueBool: false when the attribute is null. -/
def optBool (o : Option Bool) : Bool := o.getD false

/-- Go types.Int64.ValueInt64: zero when the attribute is null. -/
def optInt (o : Option Int) : Int := o.getD 0

/-- Client from client.go: the configured application token and base URL. -/
structure Client where
  token : String
  baseURL : String
deriving Repr, DecidableEq

/-- MessageRequest from client.go, with the Go zero values as defaults. -/
structure MessageRequest where
  token : String := ""
  user : String := ""
  message : String := ""
  title : String := ""
  url : String := ""
  urlTitle : String := ""
  priority : Int := 0
  sound : String := ""
  device : String := ""
  timestamp : Int := 0
  html : Int := 0
  monospace : Int := 0
  ttl : Int := 0
  retry : Int := 0
  expire : Int := 0
  callback : String := ""
deriving Repr, DecidableEq

/-- MessageResponse from client.go: request id and receipt carried by a
successful send (doPost already surfaces a non-success status as an error,
so the oracle only yields this value for status = 1 responses). -/
structure MessageResponse where
  request : String
  receipt : String
deriving Repr, DecidableEq

/-- ValidateRequest from client.go. -/
structure ValidateRequest where
  token : String := ""
  user : String := ""
  device : String := ""
deriving Repr, DecidableEq

/-- GroupMember from client.go: one row of the remote member listing.
Absent device and memo are the empty string (JSON omitempty). -/
structure GroupMember where
  user : String
  device : String
  memo : String
  disabled : Bool
deriving Repr, DecidableEq

/-- GroupResponse from client.go: a group name and its member rows. -/
structure GroupResponse where
  name : String
  users : List GroupMember
deriving Repr, DecidableEq

/-- One transport POST: the path and the form parameters, in the order the
client code sets them. -/
structure PostRequest where
  path : String
  params : List (String × String)
deriving Repr, DecidableEq

/-- The token form parameter of a request, when one was set. -/
def sentToken (r : PostRequest) : Option String :=
  (r.params.find? (fun p => p.1 == "token")).map (fun p => p.2)

/-- Client.SendMessage, client.go lines 137-186: the request it posts.
The token defaults to the configured one when the per-request token is
empty; every populated optional field is mapped, priority is always sent,
and retry, expire and callback are sent only at priority 2. -/
def Client.sendMessageReq (c : Client) (req : MessageRequest) : PostRequest :=
  let tok := if req.token = "" then c.token else req.token
  { path := "/messages.json"
  , params :=
      [("token", tok), ("user", req.user), ("message", req.message)]
      ++ (if req.title ≠ "" then [("title", req.title)] else [])
      ++ (if req.url ≠ "" then [("url", req.url)] else [])
      ++ (if req.urlTitle ≠ "" then [("url_title", req.urlTitle)] else [])
      ++ [("priority", toString req.priority)]
      ++ (if req.sound ≠ "" then [("sound", req.sound)] else [])
      ++ (if req.device ≠ "" then [("device", req.device)] else [])
      ++ (if req.timestamp ≠ 0 then [("timestamp", toString req.timestamp)] else [])
      ++ (if req.html ≠ 0 then [("html", toString req.html)] else [])
      ++ (if req.monospace ≠ 0 then [("monospace", toString req.monospace)] else [])
      ++ (if req.ttl ≠ 0 then [("ttl", toString req.ttl)] else [])
      ++ (if req.priority = 2 then
            [("retry", toString req.retry), ("expire", toString req.expire)]
            ++ (if req.callback ≠ "" then [("callback", req.callback)] else [])
          else []) }

/-- Client.ValidateUser, client.go lines 225-240: the request it posts.
The token defaults to the configured one when the per-request token is
empty. -/
def Client.validateUserReq (c : Client) (req : ValidateRequest) : PostRequest :=
  let tok := if req.token = "" then c.token else req.token
  { path := "/users/validate.json"
  , params :=
      [("token", tok), ("user", req.user)]
      ++ (if req.device ≠ "" then [("device", req.device)] else []) }

/-- Client.AddGroupUser, client.go lines 265-280: the request it posts.
The token is always the configured one; there is no per-call override. -/
def Client.addGroupUserReq (c : Client) (groupKey user device memo : String) : PostRequest :=
  { path := "/groups/" ++ groupKey ++ "/add_user.json"
  , params :=
      [("token", c.token), ("user", user)]
      ++ (if device ≠ "" then [("device", device)] else [])
      ++ (if memo ≠ "" then [("memo", memo)] else []) }

/-- Client.RemoveGroupUser, client.go lines 283-295. -/
def Client.removeGroupUserReq (c : Client) (groupKey user device : String) : PostRequest :=
  { path := "/groups/" ++ groupKey ++ "/delete_user.json"
  , params :=
      [("token", c.token), ("user", user)]
      ++ (if device ≠ "" then [("device", device)] else []) }

/-- Client.EnableGroupUser, client.go lines 298-310. -/
def Client.enableGroupUserReq (c : Client) (groupKey user device : String) : PostRequest :=
  { path := "/groups/" ++ groupKey ++ "/enable_user.json"
  , params :=
      [("token", c.token), ("user", user)]
      ++ (if device ≠ "" then [("device", device)] else []) }

/-- Client.DisableGroupUser, client.go lines 313-325. -/
def Client.disableGroupUserReq (c : Client) (groupKey user device : String) : PostRequest :=
  { path := "/groups/" ++ groupKey ++ "/disable_user.json"
  , params :=
      [("token", c.token), ("user", user)]
      ++ (if device ≠ "" then [("device", device)] else []) }

/-- GroupUserResourceModel from group_user_resource.go. Null attributes are
none. -/
structure GroupUserModel where
  groupKey : Option String
  userKey : Option String
  device : Option String
  memo : Option String
  disabled : Option Bool
  id : Option String
deriving Repr, DecidableEq

/-- The remote calls a group-user operation can issue. -/
inductive GroupCall where
  | addGroupUser (groupKey user device memo : String)
  | removeGroupUser (groupKey user device : String)
  | enableGroupUser (groupKey user device : String)
  | disableGroupUser (groupKey user device : String)
deriving Repr, DecidableEq

/-- Oracle for the remote side of one group-user operation: the outcome each
endpoint would produce if called (each endpoint is hit at most once per
operation). An error value is the message the client surfaces. -/
structure GroupRemote where
  addResult : Except String Unit
  removeResult : Except String Unit
  enableResult : Except String Unit
  disableResult : Except String Unit
  getGroupResult : Except String GroupResponse
deriving Repr

/-- Outcome of a group-user create, update or delete: the remote calls that
were issued in order, the diagnostic added (title, detail) if any, and the
state written by resp.State.Set (none when the operation returned early). -/
structure GroupOpResult where
  calls : List GroupCall
  err : Option (String × String)
  written : Option GroupUserModel
deriving Repr, DecidableEq

/-- Outcome of a group-user read: the diagnostic if any, whether the
resource was removed from state, and the state written. -/
structure GroupReadResult where
  err : Option (String × String)
  removed : Bool
  written : Option GroupUserModel
deriving Repr, DecidableEq

/-- GroupUserResource.Create, group_user_resource.go lines 109-143:
add the member, compute the id, and disable when requested. -/
def GroupUserResource.create (remote : GroupRemote) (plan : GroupUserModel) : GroupOpResult :=
  let groupKey := optStr plan.groupKey
  let userKey := optStr plan.userKey
  let device := optStr plan.device
  let memo := optStr plan.memo
  match remote.addResult with
  | .error e =>
      { calls := [.addGroupUser groupKey userKey device memo]
      , err := some ("Failed to add user to group", e), written := none }
  | .ok _ =>
      let baseId := groupKey ++ "/" ++ userKey
      let id := if device ≠ "" then baseId ++ "/" ++ device else baseId
      let data := { plan with id := some id }
      if plan.disabled.isSome && optBool plan.disabled then
        match remote.disableResult with
        | .error e =>
            { calls := [.addGroupUser groupKey userKey device memo,
                        .disableGroupUser groupKey userKey device]
            , err := some ("Failed to disable group user", e), written := none }
        | .ok _ =>
            { calls := [.addGroupUser groupKey userKey device memo,
                        .disableGroupUser groupKey userKey device]
            , err := none, written := some data }
      else
        { calls := [.addGroupUser groupKey userKey device memo]
        , err := none, written := some data }

/-- The member-matching scan of GroupUserResource.Read, group_user_resource.go
lines 163-173: the first row whose user equals the stored user key and whose
device matches, where an empty desired device matches any row. -/
def findMember (users : List GroupMember) (userKey device : String) : Option GroupMember :=
  users.find? (fun m => m.user == userKey && (device == "" || m.device == device))

/-- GroupUserResource.Read, group_user_resource.go lines 145-182: list the
group, scan for the member, remove from state when absent, otherwise copy
the disabled flag and overwrite the memo only when the row memo is
non-empty. -/
def GroupUserResource.read (remote : GroupRemote) (state : GroupUserModel) : GroupReadResult :=
  let userKey := optStr state.userKey
  let device := optStr state.device
  match remote.getGroupResult with
  | .error e =>
      { err := some ("Failed to read group", e), removed := false, written := none }
  | .ok resp =>
      match findMember resp.users userKey device with
      | none => { err := none, removed := true, written := none }
      | some m =>
          let st := { state with
            disabled := some m.disabled
          , memo := if m.memo ≠ "" then some m.memo else state.memo }
          { err := none, removed := false, written := some st }

/-- The enable or disable step of GroupUserResource.Update, lines 204-219,
with the calls already issued by the memo step. -/
def GroupUserResource.updateDisabledStep (remote : GroupRemote) (plan state : GroupUserModel)
    (callsSoFar : List GroupCall) : GroupOpResult :=
  let groupKey := optStr plan.groupKey
  let userKey := optStr plan.userKey
  let device := optStr plan.device
  if plan.disabled ≠ state.disabled then
    if optBool plan.disabled then
      match remote.disableResult with
      | .error e =>
          { calls := callsSoFar ++ [.disableGroupUser groupKey userKey device]
          , err := some ("Failed to disable group user", e), written := none }
      | .ok _ =>
          { calls := callsSoFar ++ [.disableGroupUser groupKey userKey device]
          , err := none, written := some plan }
    else
      match remote.enableResult with
      | .error e =>
          { calls := callsSoFar ++ [.enableGroupUser groupKey userKey device]
          , err := some ("Failed to enable group user", e), written := none }
      | .ok _ =>
          { calls := callsSoFar ++ [.enableGroupUser groupKey userKey device]
          , err := none, written := some plan }
  else
    { calls := callsSoFar, err := none, written := some plan }

/-- GroupUserResource.Update, group_user_resource.go lines 184-220: re-issue
add when the memo attribute changed, then disable or enable when the
disabled attribute changed; write the planned state only when every issued
call succeeded. -/
def GroupUserResource.update (remote : GroupRemote) (plan state : GroupUserModel) : GroupOpResult :=
  let groupKey := optStr plan.groupKey
  let userKey := optStr plan.userKey
  let device := optStr plan.device
  if plan.memo ≠ state.memo then
    match remote.addResult with
    | .error e =>
        { calls := [.addGroupUser groupKey userKey device (optStr plan.memo)]
        , err := some ("Failed to update group user memo", e), written := none }
    | .ok _ =>
        GroupUserResource.updateDisabledStep remote plan state
          [.addGroupUser groupKey userKey device (optStr plan.memo)]
  else
    GroupUserResource.updateDisabledStep remote plan state []

/-- MessageResourceModel from the message resource (src/unnamed/part_007).
Null attributes are none. -/
structure MessageModel where
  userKey : Option String
  message : Option String
  apiToken : Option String
  title : Option String
  url : Option String
  urlTitle : Option String
  priority : Option Int
  sound : Option String
  device : Option String
  timestamp : Option Int
  html : Option Bool
  monospace : Option Bool
  ttl : Option Int
  retry : Option Int
  expire : Option Int
  callback : Option String
  receipt : Option String
  requestId : Option String
deriving Repr, DecidableEq

/-- The MessageRequest assembled by MessageResource.Create lines 238-274:
each non-null attribute is copied onto the zero-valued request (the Go code
assigns the fields one by one, each under its own null check; html and
monospace become 1 only when the flag is non-null and true). Known plan
values are modelled, so the IsUnknown check on the token adds nothing. -/
def buildMessageRequest (data : MessageModel) : MessageRequest :=
  { user := optStr data.userKey
  , message := optStr data.message
  , token := if data.apiToken.isSome then optStr data.apiToken else ""
  , title := if data.title.isSome then optStr data.title else ""
  , url := if data.url.isSome then optStr data.url else ""
  , urlTitle := if data.urlTitle.isSome then optStr data.urlTitle else ""
  , priority := if data.priority.isSome then optInt data.priority else 0
  , sound := if data.sound.isSome then optStr data.sound else ""
  , device := if data.device.isSome then optStr data.device else ""
  , timestamp := if data.timestamp.isSome then optInt data.timestamp else 0
  , html := if data.html.isSome && optBool data.html then 1 else 0
  , monospace := if data.monospace.isSome && optBool data.monospace then 1 else 0
  , ttl := if data.ttl.isSome then optInt data.ttl else 0 }

/-- Outcome of a message create: the requests handed to SendMessage in
order, the diagnostic added (title, detail) if any, and the state written
by resp.State.Set (none when the operation returned early). -/
structure MessageCreateResult where
  sendCalls : List MessageRequest
  err : Option (String × String)
  written : Option MessageModel
deriving Repr, DecidableEq

/-- The diagnostic MessageResource.Create adds when priority is 2 and retry
or expire is null (part_007 lines 277-280). -/
def missingEmergencyErr : String × String :=
  ("Missing Emergency Fields",
   "When priority is 2 (emergency), both retry and expire must be set.")

/-- The send step of MessageResource.Create lines 290-299: invoke
SendMessage (its outcome supplied by the oracle), surface a failure, or
record the receipt and request id and write the state. -/
def sendStep (sendResult : Except String MessageResponse) (data : MessageModel)
    (msgReq : MessageRequest) : MessageCreateResult :=
  match sendResult with
  | .error e =>
      { sendCalls := [msgReq]
      , err := some ("Failed to send Pushover message", e), written := none }
  | .ok result =>
      { sendCalls := [msgReq], err := none
      , written := some { data with receipt := some result.receipt
                                  , requestId := some result.request } }

/-- MessageResource.Create, part_007 lines 231-300: assemble the request;
at priority 2 reject locally when retry or expire is null, otherwise copy
retry, expire and callback; then send and record the results. -/
def MessageResource.create (sendResult : Except String MessageResponse)
    (data : MessageModel) : MessageCreateResult :=
  let msgReq := buildMessageRequest data
  if msgReq.priority = 2 then
    if data.retry.isNone || data.expire.isNone then
      { sendCalls := [], err := some missingEmergencyErr, written := none }
    else
      let m1 := { msgReq with retry := optInt data.retry, expire := optInt data.expire }
      let m2 := if data.callback.isSome then { m1 with callback := optStr data.callback } else m1
      sendStep sendResult data m2
  else
    sendStep sendResult data msgReq

/-- Modelled from the spec: the exact-or-both-absent device matching rule of
the group-membership read, stated in the specification: with no desired
device a row matches only when the row device is also absent; with a
desired device the row device must be identical. Compare with the predicate
inside findMember, which the source uses. -/
def specDeviceMatch (userKey device : String) (m : GroupMember) : Bool :=
  m.user == userKey &&
    (if device == "" then m.device == "" else m.device == device)

/-
Concrete fixtures used by witnesses and counterexamples.
-/

/-- A message plan at normal priority with every optional field null. -/
def mPlanNormal : MessageModel :=
  { userKey := some "U", message := some "hello", apiToken := none, title := none
  , url := none, urlTitle := none, priority := some 0, sound := none, device := none
  , timestamp := none, html := none, monospace := none, ttl := none
  , retry := none, expire := none, callback := none, receipt := none, requestId := none }

/-- A message plan at emergency priority with retry unset. -/
def mPlanEmergencyMissing : MessageModel :=
  { mPlanNormal with priority := some 2, expire := some 3600 }

/-- A member row carrying a device name, used against a desired state with
no device. -/
def rowOtherDevice : GroupMember :=
  { user := "U1", device := "iphone", memo := "", disabled := true }

/-- A member row with no device and an empty memo. -/
def rowEmptyMemo : GroupMember :=
  { user := "U1", device := "", memo := "", disabled := true }

/-- A stored membership state with no device scope. -/
def stateNoDevice : GroupUserModel :=
  { groupKey := some "G1", userKey := some "U1", device := none
  , memo := some "lead", disabled := some false, id := some "G1/U1" }

/-- A remote where every endpoint succeeds and the listing is empty. -/
def remoteAllOk : GroupRemote :=
  { addResult := .ok (), removeResult := .ok (), enableResult := .ok ()
  , disableResult := .ok (), getGroupResult := .ok { name := "grp", users := [] } }

/-- A remote whose listing holds only the row with another device. -/
def remoteListingOtherDevice : GroupRemote :=
  { remoteAllOk with getGroupResult := .ok { name := "grp", users := [rowOtherDevice] } }

/-- A remote whose listing holds only the row with an empty memo. -/
def remoteRowEmptyMemo : GroupRemote :=
  { remoteAllOk with getGroupResult := .ok { name := "grp", users := [rowEmptyMemo] } }

/-- A remote where the disable endpoint fails. -/
def remoteDisableFails : GroupRemote :=
  { remoteAllOk with disableResult := .error "boom" }

/-- A remote where the add endpoint fails. -/
def remoteAddFails : GroupRemote :=
  { remoteAllOk with addResult := .error "boom2" }

/-- A membership plan asking for a disabled member. -/
def planDisabledTrue : GroupUserModel :=
  { groupKey := some "G1", userKey := some "U1", device := none
  , memo := none, disabled := some true, id := none }

/-- A membership plan with a device scope. -/
def planIphone : GroupUserModel :=
  { groupKey := some "G1", userKey := some "U1", device := some "iphone"
  , memo := none, disabled := some false, id := none }

/-- A planned state toggling only the disabled flag against stateToggle. -/
def planToggle : GroupUserModel :=
  { groupKey := some "G1", userKey := some "U1", device := none
  , memo := some "m", disabled := some true, id := some "G1/U1" }

/-- The prior state matching planToggle except for the disabled flag. -/
def stateToggle : GroupUserModel :=
  { planToggle with disabled := some false }

/-
Helper lemmas shared by the claim theorems.
-/

/-- The priority the message create branches on is the null-defaulted
priority attribute. -/
theorem buildMessageRequest_priority (data : MessageModel) :
    (buildMessageRequest data).priority = optInt data.priority := by
  cases hp : data.priority <;> simp [buildMessageRequest, optInt, hp]

/-- The send step never reports the local missing-emergency-fields
diagnostic: its only diagnostic carries the send-failure title. -/
theorem sendStep_err_ne (sendResult : Except String MessageResponse)
    (data : MessageModel) (msgReq : MessageRequest) :
    (sendStep sendResult data msgReq).err ≠ some missingEmergencyErr := by
  cases sendResult with
  | error e =>
      intro h
      simp only [sendStep, Option.some.injEq, missingEmergencyErr, Prod.mk.injEq] at h
      exact absurd h.1 (by decide)
  | ok r => simp [sendStep]

/-- The token parameter of the add-member request is always the configured
token. -/
theorem sentToken_addGroupUserReq (c : Client) (g u d m : String) :
    sentToken (c.addGroupUserReq g u d m) = some c.token := rfl

/-
Claim theorems.
-/

/-- C1: the message create returns the local missing-emergency-fields
validation diagnostic exactly when the effective priority is 2 and retry or
expire is null; whenever that diagnostic is returned, SendMessage is never
invoked (zero remote calls), and at priority other than 2 the absence of
retry and expire never produces it. -/
theorem C1_emergency_validation (sendResult : Except String MessageResponse)
    (data : MessageModel) :
    ((MessageResource.create sendResult data).err = some missingEmergencyErr ↔
        optInt data.priority = 2 ∧ (data.retry = none ∨ data.expire = none))
    ∧ ((MessageResource.create sendResult data).err = some missingEmergencyErr →
        (MessageResource.create sendResult data).sendCalls = []) := by
  have hpr := buildMessageRequest_priority data
  by_cases h2 : (buildMessageRequest data).priority = 2
  · by_cases hre : (data.retry.isNone || data.expire.isNone) = true
    · have hre2 : data.retry = none ∨ data.expire = none := by
        simpa [Option.isNone_iff_eq_none] using hre
      constructor
      · simp [MessageResource.create, h2, hre, ← hpr, hre2]
      · intro _
        simp [MessageResource.create, h2, hre]
    · have hre2 : ¬ data.retry = none ∧ ¬ data.expire = none := by
        simpa [Option.isNone_iff_eq_none, not_or] using hre
      constructor
      · have hne := sendStep_err_ne sendResult data
        simp only [MessageResource.create]
        rw [if_pos h2, if_neg hre]
        constructor
        · intro h; exact absurd h (hne _)
        · rintro ⟨-, h | h⟩
          · exact absurd h hre2.1
          · exact absurd h hre2.2
      · intro h
        exfalso
        simp only [MessageResource.create, if_pos h2, if_neg hre] at h
        exact sendStep_err_ne sendResult data _ h
  · constructor
    · simp only [MessageResource.create, if_neg h2]
      constructor
      · intro h; exact absurd h (sendStep_err_ne sendResult data _)
      · rintro ⟨hp2, -⟩
        rw [hpr] at h2
        exact absurd hp2 h2
    · intro h
      exfalso
      simp only [MessageResource.create, if_neg h2] at h
      exact sendStep_err_ne sendResult data _ h

/-- Witness for C1 at a concrete emergency plan with retry unset. -/
theorem C1_emergency_validation_witness :
    (MessageResource.create (Except.ok ⟨"rq", "rc"⟩) mPlanEmergencyMissing).err =
        some missingEmergencyErr
    ∧ (MessageResource.create (Except.ok ⟨"rq", "rc"⟩) mPlanEmergencyMissing).sendCalls = [] := by
  have h := C1_emergency_validation (Except.ok ⟨"rq", "rc"⟩) mPlanEmergencyMissing
  have herr := h.1.mpr ⟨rfl, Or.inl rfl⟩
  exact ⟨herr, h.2 herr⟩

/-- C8 counterexample: at priority 0, a successful send whose response
carries receipt r1 still records that receipt in state, so the receipt is
not recorded only when priority is 2. -/
theorem C8_counterexample :
    mPlanNormal.priority = some 0
    ∧ ((MessageResource.create (Except.ok { request := "rq1", receipt := "r1" })
          mPlanNormal).written.map (fun st => st.receipt)) = some (some "r1") :=
  ⟨rfl, rfl⟩

/-- C8 amended: whenever the remote send succeeds (the create reached the
send and it returned ok), both the request identifier and the receipt from
the response are recorded in state unconditionally; the receipt is not
gated on the priority. -/
theorem C8_record_on_success (data : MessageModel) (result : MessageResponse)
    (h : (MessageResource.create (Except.ok result) data).err = none) :
    (MessageResource.create (Except.ok result) data).written =
      some { data with receipt := some result.receipt
                     , requestId := some result.request } := by
  by_cases h2 : (buildMessageRequest data).priority = 2
  · by_cases hre : (data.retry.isNone || data.expire.isNone) = true
    · simp [MessageResource.create, h2, hre, missingEmergencyErr] at h
    · simp only [MessageResource.create] at *
      rw [if_pos h2, if_neg hre]
      simp [sendStep]
  · simp only [MessageResource.create] at *
    rw [if_neg h2]
    simp [sendStep]

/-- Witness for C8 amended at a concrete normal-priority plan. -/
theorem C8_record_on_success_witness :
    (MessageResource.create (Except.ok ⟨"rq1", "r1"⟩) mPlanNormal).written =
      some { mPlanNormal with receipt := some "r1", requestId := some "rq1" } :=
  C8_record_on_success mPlanNormal ⟨"rq1", "r1"⟩ rfl

/-- C9 counterexample: no function of the caller-supplied arguments of the
add-member call can act as a per-call token override with precedence over
the configured token, because the token parameter the client sends is the
configured token whatever the arguments are; so the group-membership calls
accept no per-call override. -/
theorem C9_counterexample :
    ¬ ∃ ov : String → String → String → String → Option String,
        (∃ g u d m t, ov g u d m = some t)
        ∧ ∀ (c : Client) (g u d m : String),
            sentToken (c.addGroupUserReq g u d m) = some ((ov g u d m).getD c.token) := by
  rintro ⟨ov, ⟨g, u, d, m, t, hsome⟩, hall⟩
  have hA := hall ⟨"A", ""⟩ g u d m
  have hB := hall ⟨"B", ""⟩ g u d m
  rw [sentToken_addGroupUserReq, hsome] at hA hB
  injection hA with hA
  injection hB with hB
  exact absurd (hA.trans hB.symm) (by decide)

/-- C9 amended: the message send and the user-validation calls take a
per-call token that, when non-empty, takes precedence over the configured
token; the group-membership add, remove, enable and disable calls accept no
per-call override and always send the configured token. -/
theorem C9_token_threading (c : Client) (req : MessageRequest)
    (vreq : ValidateRequest) (g u d m : String) :
    sentToken (c.sendMessageReq req) = some (if req.token = "" then c.token else req.token)
    ∧ sentToken (c.validateUserReq vreq) = some (if vreq.token = "" then c.token else vreq.token)
    ∧ sentToken (c.addGroupUserReq g u d m) = some c.token
    ∧ sentToken (c.removeGroupUserReq g u d) = some c.token
    ∧ sentToken (c.enableGroupUserReq g u d) = some c.token
    ∧ sentToken (c.disableGroupUserReq g u d) = some c.token :=
  ⟨rfl, rfl, rfl, rfl, rfl, rfl⟩

/-- C2 counterexample: with no desired device, the read scan accepts a row
whose device is iphone — the source matches any row device when the desired
device is absent, while the stated rule requires the row device to be
absent as well; the resource therefore keeps the entity and copies the row
disabled flag. -/
theorem C2_counterexample :
    findMember [rowOtherDevice] "U1" "" = some rowOtherDevice
    ∧ specDeviceMatch "U1" "" rowOtherDevice = false
    ∧ (GroupUserResource.read remoteListingOtherDevice stateNoDevice).written =
        some { stateNoDevice with disabled := some true } :=
  ⟨rfl, rfl, rfl⟩

/-- C2 amended: a row is accepted as the match only when its member key
equals the desired member key and, when the desired device is present, its
device is identical; when the desired device is absent the row device is
not constrained. -/
theorem C2_match_necessity (users : List GroupMember) (u d : String) (m : GroupMember)
    (h : findMember users u d = some m) :
    m.user = u ∧ (d ≠ "" → m.device = d) := by
  have hp := List.find?_some h
  simp only [Bool.and_eq_true, Bool.or_eq_true, beq_iff_eq] at hp
  obtain ⟨h1, h2⟩ := hp
  refine ⟨h1, fun hd => ?_⟩
  rcases h2 with h2 | h2
  · exact absurd h2 hd
  · exact h2

/-- Witness for C2 amended at a concrete listing with a device-scoped
desired state. -/
theorem C2_match_necessity_witness :
    rowOtherDevice.user = "U1" ∧ ("iphone" ≠ "" → rowOtherDevice.device = "iphone") :=
  C2_match_necessity [rowOtherDevice] "U1" "iphone" rowOtherDevice rfl

/-- C3: when the listing call succeeds and no row matches the natural key,
the read removes the entity from state and reports no error and writes
nothing; a read reports an error exactly when the listing call itself
failed. -/
theorem C3_drift_not_error (remote : GroupRemote) (state : GroupUserModel) :
    (∀ resp, remote.getGroupResult = Except.ok resp →
        findMember resp.users (optStr state.userKey) (optStr state.device) = none →
          (GroupUserResource.read remote state).removed = true
          ∧ (GroupUserResource.read remote state).err = none
          ∧ (GroupUserResource.read remote state).written = none)
    ∧ ((GroupUserResource.read remote state).err ≠ none ↔
        ∃ e, remote.getGroupResult = Except.error e) := by
  cases hg : remote.getGroupResult with
  | error e =>
      constructor
      · intro resp hresp _
        exact Except.noConfusion hresp
      · simp [GroupUserResource.read, hg]
  | ok resp =>
      constructor
      · intro resp2 hresp hfind
        injection hresp with hresp
        subst hresp
        simp [GroupUserResource.read, hg, hfind]
      · cases hf : findMember resp.users (optStr state.userKey) (optStr state.device) <;>
          simp [GroupUserResource.read, hg, hf]

/-- Witness for C3 at a concrete state against an empty listing. -/
theorem C3_drift_not_error_witness :
    (GroupUserResource.read remoteAllOk stateNoDevice).removed = true
    ∧ (GroupUserResource.read remoteAllOk stateNoDevice).err = none
    ∧ (GroupUserResource.read remoteAllOk stateNoDevice).written = none :=
  (C3_drift_not_error remoteAllOk stateNoDevice).1 { name := "grp", users := [] } rfl rfl

/-- C4: a create with desired disabled true issues the add-member call first
and the disable-member call second; when the add call succeeded and the
disable call fails, the reported diagnostic is the disable-failure one,
distinct from the add-failure diagnostic, and no state is written, so the
caller can tell that the member was added but not yet disabled. -/
theorem C4_create_two_call_sequence (remote : GroupRemote) (plan : GroupUserModel)
    (hdis : plan.disabled = some true) :
    (remote.addResult = Except.ok () →
        (GroupUserResource.create remote plan).calls =
          [GroupCall.addGroupUser (optStr plan.groupKey) (optStr plan.userKey)
             (optStr plan.device) (optStr plan.memo),
           GroupCall.disableGroupUser (optStr plan.groupKey) (optStr plan.userKey)
             (optStr plan.device)])
    ∧ (∀ e, remote.addResult = Except.ok () → remote.disableResult = Except.error e →
        (GroupUserResource.create remote plan).err = some ("Failed to disable group user", e)
        ∧ (GroupUserResource.create remote plan).written = none
        ∧ ("Failed to disable group user" : String) ≠ "Failed to add user to group") := by
  have hb : (plan.disabled.isSome && optBool plan.disabled) = true := by
    simp [hdis, optBool]
  constructor
  · intro hadd
    cases hdr : remote.disableResult <;>
      simp [GroupUserResource.create, hadd, hb, hdr]
  · intro e hadd hdr
    refine ⟨?_, ?_, ?_⟩
    · simp [GroupUserResource.create, hadd, hb, hdr]
    · simp [GroupUserResource.create, hadd, hb, hdr]
    · decide

/-- Witness for C4 at a concrete plan where the disable endpoint fails. -/
theorem C4_create_two_call_sequence_witness :
    (GroupUserResource.create remoteDisableFails planDisabledTrue).calls =
      [GroupCall.addGroupUser "G1" "U1" "" "", GroupCall.disableGroupUser "G1" "U1" ""]
    ∧ (GroupUserResource.create remoteDisableFails planDisabledTrue).err =
        some ("Failed to disable group user", "boom") := by
  have h := C4_create_two_call_sequence remoteDisableFails planDisabledTrue rfl
  exact ⟨h.1 rfl, (h.2 "boom" rfl rfl).1⟩

/-- C5: whenever a create writes state, the computed identifier is the group
key, then the member key, and, only when the device attribute is non-empty,
the device name, joined by slashes. -/
theorem C5_computed_id (remote : GroupRemote) (plan st : GroupUserModel)
    (h : (GroupUserResource.create remote plan).written = some st) :
    st.id = some (if optStr plan.device ≠ "" then
        optStr plan.groupKey ++ "/" ++ optStr plan.userKey ++ "/" ++ optStr plan.device
      else optStr plan.groupKey ++ "/" ++ optStr plan.userKey) := by
  cases hadd : remote.addResult with
  | error e => simp [GroupUserResource.create, hadd] at h
  | ok _ =>
      by_cases hb : (plan.disabled.isSome && optBool plan.disabled) = true
      · cases hdr : remote.disableResult with
        | error e => simp [GroupUserResource.create, hadd, hb, hdr] at h
        | ok _ =>
            simp only [GroupUserResource.create, hadd, hb, hdr, if_pos,
              Option.some.injEq] at h
            subst h
            rfl
      · simp only [GroupUserResource.create, hadd] at h
        rw [if_neg hb] at h
        simp only [Option.some.injEq] at h
        subst h
        rfl

/-- Witness for C5 at a concrete plan with a device scope. -/
theorem C5_computed_id_witness :
    ({ planIphone with id := some "G1/U1/iphone" } : GroupUserModel).id =
      some "G1/U1/iphone" :=
  (C5_computed_id remoteAllOk planIphone
    { planIphone with id := some "G1/U1/iphone" } rfl).trans (by decide)

/-- C6: an update whose plan differs from the prior state only in the
disabled flag issues exactly one remote call, disable-member when the new
value is true and enable-member when it is false, and no add-member call. -/
theorem C6_disabled_only_one_call (remote : GroupRemote) (plan state : GroupUserModel)
    (hm : plan.memo = state.memo) (hd : plan.disabled ≠ state.disabled) :
    (GroupUserResource.update remote plan state).calls =
      (if optBool plan.disabled then
        [GroupCall.disableGroupUser (optStr plan.groupKey) (optStr plan.userKey)
           (optStr plan.device)]
      else
        [GroupCall.enableGroupUser (optStr plan.groupKey) (optStr plan.userKey)
           (optStr plan.device)]) := by
  unfold GroupUserResource.update
  rw [if_neg (fun hne => hne hm)]
  unfold GroupUserResource.updateDisabledStep
  rw [if_pos hd]
  by_cases hb : optBool plan.disabled = true
  · cases hdr : remote.disableResult <;> simp [hb, hdr]
  · cases her : remote.enableResult <;> simp [hb, her]

/-- Witness for C6 at a concrete false-to-true toggle. -/
theorem C6_disabled_only_one_call_witness :
    (GroupUserResource.update remoteAllOk planToggle stateToggle).calls =
      (if optBool planToggle.disabled then
        [GroupCall.disableGroupUser (optStr planToggle.groupKey) (optStr planToggle.userKey)
           (optStr planToggle.device)]
      else
        [GroupCall.enableGroupUser (optStr planToggle.groupKey) (optStr planToggle.userKey)
           (optStr planToggle.device)]) :=
  C6_disabled_only_one_call remoteAllOk planToggle stateToggle rfl (by decide)

/-- C7: when the read finds the matching row, the written state carries the
row disabled value, keeps the stored memo when the row memo is empty and
takes the row memo when it is non-empty, leaving every other field
unchanged. -/
theorem C7_read_found (remote : GroupRemote) (state : GroupUserModel)
    (resp : GroupResponse) (m : GroupMember)
    (hg : remote.getGroupResult = Except.ok resp)
    (hf : findMember resp.users (optStr state.userKey) (optStr state.device) = some m) :
    (GroupUserResource.read remote state).written =
      some { state with disabled := some m.disabled
                      , memo := if m.memo ≠ "" then some m.memo else state.memo } := by
  simp [GroupUserResource.read, hg, hf]

/-- Witness for C7 at a row with an empty memo: the stored memo survives. -/
theorem C7_read_found_witness :
    (GroupUserResource.read remoteRowEmptyMemo stateNoDevice).written =
      some { stateNoDevice with
               disabled := some rowEmptyMemo.disabled
             , memo := if rowEmptyMemo.memo ≠ "" then some rowEmptyMemo.memo
                       else stateNoDevice.memo } :=
  C7_read_found remoteRowEmptyMemo stateNoDevice { name := "grp", users := [rowEmptyMemo] }
    rowEmptyMemo rfl rfl

/-- C10: for both create and update, state is written exactly when no
diagnostic was reported; when the first remote call of the sequence fails,
no further call is issued and nothing is written. -/
theorem C10_state_write_gating (remote : GroupRemote) (plan state : GroupUserModel) :
    ((GroupUserResource.create remote plan).written.isSome ↔
        (GroupUserResource.create remote plan).err = none)
    ∧ (∀ e, remote.addResult = Except.error e →
        (GroupUserResource.create remote plan).calls =
          [GroupCall.addGroupUser (optStr plan.groupKey) (optStr plan.userKey)
             (optStr plan.device) (optStr plan.memo)]
        ∧ (GroupUserResource.create remote plan).written = none)
    ∧ ((GroupUserResource.update remote plan state).written.isSome ↔
        (GroupUserResource.update remote plan state).err = none)
    ∧ (∀ e, plan.memo ≠ state.memo → remote.addResult = Except.error e →
        (GroupUserResource.update remote plan state).calls =
          [GroupCall.addGroupUser (optStr plan.groupKey) (optStr plan.userKey)
             (optStr plan.device) (optStr plan.memo)]
        ∧ (GroupUserResource.update remote plan state).written = none) := by
  refine ⟨?_, ?_, ?_, ?_⟩
  · cases hadd : remote.addResult with
    | error e => simp [GroupUserResource.create, hadd]
    | ok _ =>
        by_cases hb : (plan.disabled.isSome && optBool plan.disabled) = true
        · cases hdr : remote.disableResult <;>
            simp [GroupUserResource.create, hadd, hb, hdr]
        · simp only [GroupUserResource.create, hadd]
          rw [if_neg (by simp [hb])]
          simp
  · intro e hadd
    simp [GroupUserResource.create, hadd]
  · have hstep : ∀ cs, (GroupUserResource.updateDisabledStep remote plan state cs).written.isSome ↔
        (GroupUserResource.updateDisabledStep remote plan state cs).err = none := by
      intro cs
      unfold GroupUserResource.updateDisabledStep
      by_cases hd : plan.disabled ≠ state.disabled
      · rw [if_pos hd]
        by_cases hb : optBool plan.disabled = true
        · cases hdr : remote.disableResult <;> simp [hb, hdr]
        · cases her : remote.enableResult <;> simp [hb, her]
      · rw [if_neg hd]
        simp
    unfold GroupUserResource.update
    by_cases hm : plan.memo ≠ state.memo
    · rw [if_pos hm]
      cases hadd : remote.addResult with
      | error e => simp
      | ok _ => exact hstep _
    · rw [if_neg hm]
      exact hstep _
  · intro e hm hadd
    unfold GroupUserResource.update
    rw [if_pos hm, hadd]
    exact ⟨rfl, rfl⟩

/-- Witness for C10 at a concrete remote whose add endpoint fails, for both
a create and a memo-changing update. -/
theorem C10_state_write_gating_witness :
    ((GroupUserResource.create remoteAddFails planDisabledTrue).calls =
        [GroupCall.addGroupUser "G1" "U1" "" ""]
      ∧ (GroupUserResource.create remoteAddFails planDisabledTrue).written = none)
    ∧ ((GroupUserResource.update remoteAddFails planToggle stateNoDevice).calls =
        [GroupCall.addGroupUser "G1" "U1" "" "m"]
      ∧ (GroupUserResource.update remoteAddFails planToggle stateNoDevice).written = none) := by
  have h := C10_state_write_gating remoteAddFails planDisabledTrue stateNoDevice
  have h2 := C10_state_write_gating remoteAddFails planToggle stateNoDevice
  exact ⟨h.2.1 "boom2" rfl, h2.2.2.2 "boom2" (by decide) rfl⟩

end Pushover
